import Mathlib

/-!
Shallow embedding of the OAuth 2.1 authorization server of the gcal-mcp
repository: the in-memory credential store (`auth-server/src/storage.ts`,
class `InMemoryStorage`) and the protocol-engine endpoint handlers of the
auth server entry point (`/register`, `/authorize`, the Google OAuth
callback, and `/token` with its two grant handlers), plus
`GoogleAuthService.generateAuthUrl`.

Modelling conventions:
- JS `Date` values are milliseconds since epoch, modelled as `Nat`; each
  operation that reads `Date.now()` / `new Date()` takes the current time
  `now : Nat` as a parameter.
- JS `Map<string, V>` is an association list `SMap V` with JS `Map`
  semantics (`set` replaces in place, `delete` removes).
- Possibly-missing request fields (`req.body.x` / `req.query.x`) are
  `Option String`; JS string truthiness (`!x`) is `jsFalsy`.
- Randomness (`cryptoService.generateState()`, client-id generation) and
  crypto (`verifyPKCE`, JWT signing) are inputs: fresh random strings are
  explicit parameters and `verifyPKCE` is a function parameter; the signed
  JWT access token is modelled by its payload (the claims that are signed).
- Network calls to Google (the upstream token exchange plus profile fetch
  in the callback) are modelled by a parameter holding their outcome:
  `Except String (UserTokens × GoogleUserInfo)`; a thrown upstream error
  is caught by the handler's try/catch and yields a 500 `server_error`.
-/

/-- JS string truthiness test for an optional field: `!x` is true exactly
when the field is absent (`undefined`) or the empty string. -/
def jsFalsy : Option String → Bool
  | none => true
  | some s => s = ""

/-- Association map with string keys, mirroring JS `Map<string, V>`. -/
def SMap (V : Type) : Type := List (String × V)

namespace SMap

def empty {V : Type} : SMap V := []

/-- `Map.prototype.get`. -/
def get {V : Type} : SMap V → String → Option V
  | [], _ => none
  | (k, v) :: rest, key => if k = key then some v else get rest key

/-- `Map.prototype.set`: replaces the value in place if the key is present,
otherwise appends the new entry. -/
def set {V : Type} : SMap V → String → V → SMap V
  | [], key, val => [(key, val)]
  | (k, v) :: rest, key, val =>
      if k = key then (k, val) :: rest else (k, v) :: set rest key val

/-- `Map.prototype.delete`. -/
def erase {V : Type} : SMap V → String → SMap V
  | [], _ => []
  | (k, v) :: rest, key =>
      if k = key then erase rest key else (k, v) :: erase rest key

end SMap

instance {V : Type} [DecidableEq V] : DecidableEq (SMap V) :=
  inferInstanceAs (DecidableEq (List (String × V)))

instance {V : Type} [Repr V] : Repr (SMap V) :=
  inferInstanceAs (Repr (List (String × V)))

/-- `ClientRegistration` from `auth-server/src/types.ts`. -/
structure ClientRegistration where
  client_id : String
  client_name : String
  redirect_uris : List String
  grant_types : List String
  response_types : List String
  scope : String
  created_at : Nat
deriving DecidableEq, Repr

/-- `AuthorizationRequest` from `auth-server/src/types.ts`.
`response_type` is fixed to "code" and `code_challenge_method` to "S256"
by the type; they are kept as string fields holding those literals. -/
structure AuthorizationRequest where
  client_id : String
  response_type : String
  redirect_uri : String
  scope : String
  state : String
  code_challenge : String
  code_challenge_method : String
  resource : String
deriving DecidableEq, Repr

/-- Value type of `InMemoryStorage.authorizationRequests`:
`AuthorizationRequest & { googleState: string; expires_at: Date }`. -/
structure AuthReqRecord where
  request : AuthorizationRequest
  googleState : String
  expires_at : Nat
deriving DecidableEq, Repr

/-- Value type of `InMemoryStorage.authorizationCodes`:
`AuthorizationRequest & { user_id: string; expires_at: Date }`. -/
structure AuthCodeRecord where
  request : AuthorizationRequest
  user_id : String
  expires_at : Nat
deriving DecidableEq, Repr

/-- Value type of `InMemoryStorage.refreshTokens`. -/
structure RefreshTokenRecord where
  user_id : String
  client_id : String
  scope : String
  expires_at : Nat
deriving DecidableEq, Repr

/-- Value type of `InMemoryStorage.userTokens` (cached Google tokens). -/
structure UserTokens where
  access_token : String
  refresh_token : Option String
  token_type : String
  expiry_date : Option Nat
deriving DecidableEq, Repr

/-- `GoogleUserInfo` from the auth server's types. -/
structure GoogleUserInfo where
  id : String
  email : String
  name : String
  picture : Option String
  verified_email : Bool
deriving DecidableEq, Repr

/-- The five maps of `InMemoryStorage` (`auth-server/src/storage.ts`). -/
structure Storage where
  clients : SMap ClientRegistration
  authorizationCodes : SMap AuthCodeRecord
  refreshTokens : SMap RefreshTokenRecord
  authorizationRequests : SMap AuthReqRecord
  userTokens : SMap UserTokens
deriving DecidableEq, Repr

def Storage.empty : Storage :=
  { clients := SMap.empty
    authorizationCodes := SMap.empty
    refreshTokens := SMap.empty
    authorizationRequests := SMap.empty
    userTokens := SMap.empty }

namespace Storage

/-- Input of `InMemoryStorage.registerClient`
(`Omit<ClientRegistration, 'client_id' | 'created_at'>`). -/
structure ClientData where
  client_name : String
  redirect_uris : List String
  grant_types : List String
  response_types : List String
  scope : String
deriving DecidableEq, Repr

/-- `registerClient`; the randomly generated client id is the parameter
`newClientId` and `created_at = new Date()` is `now`. -/
def registerClient (newClientId : String) (now : Nat) (d : ClientData)
    (st : Storage) : ClientRegistration × Storage :=
  let client : ClientRegistration :=
    { client_id := newClientId
      client_name := d.client_name
      redirect_uris := d.redirect_uris
      grant_types := d.grant_types
      response_types := d.response_types
      scope := d.scope
      created_at := now }
  (client, { st with clients := st.clients.set newClientId client })

/-- `getClient`. -/
def getClient (client_id : String) (st : Storage) : Option ClientRegistration :=
  st.clients.get client_id

/-- `storeAuthorizationRequest`: 10-minute expiry from `now`. -/
def storeAuthorizationRequest (now : Nat) (googleState : String)
    (request : AuthorizationRequest) (st : Storage) : Storage :=
  let record : AuthReqRecord :=
    { request := request, googleState := googleState
      expires_at := now + 10 * 60 * 1000 }
  { st with authorizationRequests :=
      st.authorizationRequests.set googleState record }

/-- `getAuthorizationRequest`: returns the record when present and
`expires_at > now`; deletes it (and returns none) when present but not
strictly later than `now`; the store is otherwise untouched. -/
def getAuthorizationRequest (now : Nat) (googleState : String)
    (st : Storage) : Option AuthReqRecord × Storage :=
  match st.authorizationRequests.get googleState with
  | none => (none, st)
  | some request =>
      if now < request.expires_at then (some request, st)
      else (none, { st with authorizationRequests :=
                      st.authorizationRequests.erase googleState })

/-- `storeAuthorizationCode`: 10-minute expiry from `now`. -/
def storeAuthorizationCode (now : Nat) (code : String)
    (request : AuthorizationRequest) (user_id : String) (st : Storage) :
    Storage :=
  let record : AuthCodeRecord :=
    { request := request, user_id := user_id
      expires_at := now + 10 * 60 * 1000 }
  { st with authorizationCodes := st.authorizationCodes.set code record }

/-- `getAuthorizationCode`: absent gives none; present with
`expires_at < now` is deleted and gives none; otherwise returned. -/
def getAuthorizationCode (now : Nat) (code : String) (st : Storage) :
    Option AuthCodeRecord × Storage :=
  match st.authorizationCodes.get code with
  | none => (none, st)
  | some authCode =>
      if authCode.expires_at < now then
        (none, { st with authorizationCodes :=
                   st.authorizationCodes.erase code })
      else (some authCode, st)

/-- `consumeAuthorizationCode`: `getAuthorizationCode`, then delete when it
returned a record. -/
def consumeAuthorizationCode (now : Nat) (code : String) (st : Storage) :
    Option AuthCodeRecord × Storage :=
  let r := getAuthorizationCode now code st
  match r.1 with
  | some authCode =>
      (some authCode,
       { r.2 with authorizationCodes := r.2.authorizationCodes.erase code })
  | none => (none, r.2)

/-- `storeRefreshToken`: 24-hour expiry from `now`. -/
def storeRefreshToken (now : Nat) (token user_id client_id scope : String)
    (st : Storage) : Storage :=
  let record : RefreshTokenRecord :=
    { user_id := user_id, client_id := client_id, scope := scope
      expires_at := now + 24 * 60 * 60 * 1000 }
  { st with refreshTokens := st.refreshTokens.set token record }

/-- `getRefreshToken`: absent gives none; present with `expires_at < now`
is deleted and gives none; otherwise returned (no delete on read). -/
def getRefreshToken (now : Nat) (token : String) (st : Storage) :
    Option RefreshTokenRecord × Storage :=
  match st.refreshTokens.get token with
  | none => (none, st)
  | some refreshToken =>
      if refreshToken.expires_at < now then
        (none, { st with refreshTokens := st.refreshTokens.erase token })
      else (some refreshToken, st)

/-- `storeUserTokens`: unconditional overwrite keyed by user id. -/
def storeUserTokens (userId : String) (tokens : UserTokens) (st : Storage) :
    Storage :=
  { st with userTokens := st.userTokens.set userId tokens }

/-- `getUserTokens`. -/
def getUserTokens (userId : String) (st : Storage) : Option UserTokens :=
  st.userTokens.get userId

end Storage

/-- Server configuration read from the environment in the entry point:
`ISSUER` and `MCP_RESOURCE_ID`. -/
structure Config where
  issuer : String
  mcpResourceId : String
deriving DecidableEq, Repr

/-- `JWTPayload` from `auth-server/src/types.ts`; the claims carried by a
minted access token (the signing itself is abstracted away). -/
structure JWTPayload where
  iss : String
  sub : String
  aud : String
  exp : Nat
  iat : Nat
  scope : String
  client_id : String
  auth_time : Nat
deriving DecidableEq, Repr

/-- `generateAccessToken` from the auth server entry point: builds the JWT
payload at second resolution (`Math.floor(Date.now() / 1000)`). -/
def generateAccessToken (issuer userId clientId scope resource : String)
    (nowMs : Nat) : JWTPayload :=
  let now := nowMs / 1000
  { iss := issuer
    sub := userId
    aud := resource
    exp := now + 3600
    iat := now
    scope := scope
    client_id := clientId
    auth_time := now }

/-- Body of a successful `/token` response; `access_token` is the payload
of the signed JWT, `refresh_token` is absent in the refresh grant. -/
structure TokenResponse where
  access_token : JWTPayload
  token_type : String
  expires_in : Nat
  refresh_token : Option String
  scope : String
deriving DecidableEq, Repr

/-- Result of a `/token` request: 200 JSON success or
`status`/`error`/`error_description`. -/
inductive TokenResult where
  | ok (body : TokenResponse)
  | err (status : Nat) (error description : String)
deriving DecidableEq, Repr

/-- `req.body` of `POST /token` (fields it destructures). -/
structure TokenRequest where
  grant_type : Option String
  code : Option String
  redirect_uri : Option String
  client_id : Option String
  code_verifier : Option String
  refresh_token : Option String
  resource : Option String
deriving DecidableEq, Repr

/-- `handleAuthorizationCodeGrant`. `pkceVerify` is
`cryptoService.verifyPKCE`, `newRefreshToken` the random string produced
by `cryptoService.generateState()` for the refresh token, and `resource`
the request's `resource` string: the dispatcher `POST /token` only calls
this handler after checking `body.resource = some cfg.mcpResourceId`, so
the body's `resource` is that known string.  In the success path the TS
code passes the body's `client_id` to `generateAccessToken` and
`storeRefreshToken`; the preceding mismatch check forces it equal to
`authCodeData.client_id`, which is what is used here. -/
def handleAuthorizationCodeGrant (issuer : String)
    (pkceVerify : String → String → Bool) (now : Nat)
    (newRefreshToken : String) (resource : String) (body : TokenRequest)
    (st : Storage) : TokenResult × Storage :=
  if jsFalsy body.code || jsFalsy body.client_id || jsFalsy body.code_verifier
  then
    (.err 400 "invalid_request" "Missing required parameters", st)
  else
    let code := body.code.getD ""
    let code_verifier := body.code_verifier.getD ""
    match Storage.consumeAuthorizationCode now code st with
    | (none, st1) =>
        (.err 400 "invalid_grant" "Invalid or expired authorization code", st1)
    | (some authCodeData, st1) =>
        if some authCodeData.request.client_id ≠ body.client_id then
          (.err 400 "invalid_grant" "Client ID mismatch", st1)
        else if some authCodeData.request.redirect_uri ≠ body.redirect_uri then
          (.err 400 "invalid_grant" "Redirect URI mismatch", st1)
        else if ¬ pkceVerify code_verifier authCodeData.request.code_challenge
        then
          (.err 400 "invalid_grant" "Invalid code verifier", st1)
        else
          let accessToken := generateAccessToken issuer authCodeData.user_id
            authCodeData.request.client_id authCodeData.request.scope
            resource now
          let st2 := Storage.storeRefreshToken now newRefreshToken
            authCodeData.user_id authCodeData.request.client_id
            authCodeData.request.scope st1
          (.ok { access_token := accessToken
                 token_type := "Bearer"
                 expires_in := 3600
                 refresh_token := some newRefreshToken
                 scope := authCodeData.request.scope }, st2)

/-- `handleRefreshTokenGrant`; like the code grant, the TS success path
passes the body's `client_id`, forced equal to the stored record's
`client_id` by the mismatch check. -/
def handleRefreshTokenGrant (issuer : String) (now : Nat)
    (resource : String) (body : TokenRequest) (st : Storage) :
    TokenResult × Storage :=
  if jsFalsy body.refresh_token || jsFalsy body.client_id then
    (.err 400 "invalid_request" "Missing required parameters", st)
  else
    match Storage.getRefreshToken now (body.refresh_token.getD "") st with
    | (none, st1) =>
        (.err 400 "invalid_grant" "Invalid or expired refresh token", st1)
    | (some refreshTokenData, st1) =>
        if some refreshTokenData.client_id ≠ body.client_id then
          (.err 400 "invalid_grant" "Client ID mismatch", st1)
        else
          let accessToken := generateAccessToken issuer
            refreshTokenData.user_id refreshTokenData.client_id
            refreshTokenData.scope resource now
          (.ok { access_token := accessToken
                 token_type := "Bearer"
                 expires_in := 3600
                 refresh_token := none
                 scope := refreshTokenData.scope }, st1)

/-- `POST /token`: validates `resource` against the configured
`MCP_RESOURCE_ID` first (for every grant type), then dispatches on
`grant_type`. -/
def postToken (cfg : Config) (pkceVerify : String → String → Bool)
    (now : Nat) (newRefreshToken : String) (body : TokenRequest)
    (st : Storage) : TokenResult × Storage :=
  if body.resource ≠ some cfg.mcpResourceId then
    (.err 400 "invalid_request"
       ("Invalid resource. Expected: " ++ cfg.mcpResourceId), st)
  else if body.grant_type = some "authorization_code" then
    handleAuthorizationCodeGrant cfg.issuer pkceVerify now newRefreshToken
      cfg.mcpResourceId body st
  else if body.grant_type = some "refresh_token" then
    handleRefreshTokenGrant cfg.issuer now cfg.mcpResourceId body st
  else
    (.err 400 "unsupported_grant_type"
       "Only authorization_code and refresh_token grants are supported", st)

/-- The runtime value of `req.body.redirect_uris` as far as the
`POST /register` validation distinguishes it: an array of strings, or a
present non-array value (any such value is rejected, whether JS-truthy,
failing `Array.isArray`, or JS-falsy, failing the `!redirect_uris` test). -/
inductive RedirectUrisVal where
  | array (xs : List String)
  | notArray
deriving DecidableEq, Repr

/-- `req.body` of `POST /register` (fields it destructures). -/
structure RegisterBody where
  client_name : Option String
  redirect_uris : Option RedirectUrisVal
  grant_types : Option (List String)
  response_types : Option (List String)
deriving DecidableEq, Repr

/-- Result of `POST /register`: 201 with the stored client record, or an
error body. -/
inductive RegisterResult where
  | created (client : ClientRegistration)
  | err (status : Nat) (error description : String)
deriving DecidableEq, Repr

/-- `POST /register`; `newClientId` is the randomly generated client id. -/
def postRegister (newClientId : String) (now : Nat) (body : RegisterBody)
    (st : Storage) : RegisterResult × Storage :=
  let urisOk := match body.redirect_uris with
    | some (.array _) => true
    | _ => false
  if jsFalsy body.client_name || !urisOk then
    (.err 400 "invalid_request"
       "Missing required fields: client_name, redirect_uris", st)
  else
    let xs := match body.redirect_uris with
      | some (.array xs) => xs
      | _ => []
    let r := Storage.registerClient newClientId now
      { client_name := body.client_name.getD ""
        redirect_uris := xs
        grant_types :=
          body.grant_types.getD ["authorization_code", "refresh_token"]
        response_types := body.response_types.getD ["code"]
        scope :=
          "calendar.read calendar.write calendar.events.read calendar.events.write" }
      st
    (.created r.1, r.2)

/-- The `GoogleAuthService` constructor arguments (from environment /
hardcoded redirect URI in the entry point). -/
structure GoogleAuthService where
  clientId : String
  clientSecret : String
  redirectUri : String
deriving DecidableEq, Repr

/-- The upstream consent URL built by `GoogleAuthService.generateAuthUrl`,
represented by the parameters the googleapis client serializes into it:
the explicitly passed `access_type`, `scope` list, `state` and `prompt`,
plus `response_type` and the service's configured client id and redirect
URI. -/
structure UpstreamAuthUrl where
  access_type : String
  scopes : List String
  state : String
  prompt : String
  response_type : String
  client_id : String
  redirect_uri : String
deriving DecidableEq, Repr

/-- The query parameters of the serialized upstream consent URL (the
`scope` list is space-joined by the googleapis serializer). -/
def UpstreamAuthUrl.params (u : UpstreamAuthUrl) : List (String × String) :=
  [("access_type", u.access_type),
   ("scope", String.intercalate " " u.scopes),
   ("state", u.state),
   ("prompt", u.prompt),
   ("response_type", u.response_type),
   ("client_id", u.client_id),
   ("redirect_uri", u.redirect_uri)]

/-- `GoogleAuthService.generateAuthUrl`: fixed Google scope list, offline
access, forced consent, and the given `state`. -/
def GoogleAuthService.generateAuthUrl (svc : GoogleAuthService)
    (state : String) : UpstreamAuthUrl :=
  { access_type := "offline"
    scopes :=
      ["https://www.googleapis.com/auth/calendar",
       "https://www.googleapis.com/auth/calendar.events",
       "https://www.googleapis.com/auth/userinfo.email",
       "https://www.googleapis.com/auth/userinfo.profile"]
    state := state
    prompt := "consent"
    response_type := "code"
    client_id := svc.clientId
    redirect_uri := svc.redirectUri }

/-- `req.query` of `GET /authorize` (fields it destructures). -/
structure AuthorizeQuery where
  client_id : Option String
  response_type : Option String
  redirect_uri : Option String
  scope : Option String
  state : Option String
  code_challenge : Option String
  code_challenge_method : Option String
  resource : Option String
deriving DecidableEq, Repr

/-- Result of `GET /authorize`: a redirect to the upstream consent URL, or
an error body. -/
inductive AuthorizeResult where
  | redirect (url : UpstreamAuthUrl)
  | err (status : Nat) (error description : String)
deriving DecidableEq, Repr

/-- `GET /authorize`; `googleState` is the fresh random upstream state from
`cryptoService.generateState()`. -/
def getAuthorize (cfg : Config) (svc : GoogleAuthService)
    (googleState : String) (now : Nat) (q : AuthorizeQuery) (st : Storage) :
    AuthorizeResult × Storage :=
  if jsFalsy q.client_id || jsFalsy q.response_type || jsFalsy q.redirect_uri
      || jsFalsy q.state || jsFalsy q.code_challenge || jsFalsy q.resource
  then
    (.err 400 "invalid_request" "Missing required parameters", st)
  else if q.response_type ≠ some "code" then
    (.err 400 "unsupported_response_type"
       "Only authorization_code flow is supported", st)
  else if q.code_challenge_method ≠ some "S256" then
    (.err 400 "invalid_request"
       "Only S256 code challenge method is supported", st)
  else if q.resource ≠ some cfg.mcpResourceId then
    (.err 400 "invalid_request"
       ("Invalid resource. Expected: " ++ cfg.mcpResourceId), st)
  else
    match Storage.getClient (q.client_id.getD "") st with
    | none => (.err 400 "invalid_client" "Invalid client_id", st)
    | some client =>
        if ¬ (q.redirect_uri.getD "") ∈ client.redirect_uris then
          (.err 400 "invalid_request" "Invalid redirect_uri", st)
        else
          let googleAuthUrl := svc.generateAuthUrl googleState
          let authRequest : AuthorizationRequest :=
            { client_id := q.client_id.getD ""
              response_type := "code"
              redirect_uri := q.redirect_uri.getD ""
              scope :=
                if jsFalsy q.scope then "calendar.read calendar.write"
                else q.scope.getD ""
              state := q.state.getD ""
              code_challenge := q.code_challenge.getD ""
              code_challenge_method := "S256"
              resource := q.resource.getD "" }
          (.redirect googleAuthUrl,
           Storage.storeAuthorizationRequest now googleState authRequest st)

/-- Result of `GET /oauth/google/callback`: a redirect back to the client's
registered redirect URI carrying the new code and the client's original
state, or an error body. -/
inductive CallbackResult where
  | redirect (redirect_uri code state : String)
  | err (status : Nat) (error description : String)
deriving DecidableEq, Repr

/-- `GET /oauth/google/callback`. `qCode`, `qState` and `qError` are the
query parameters; `upstream` is the combined outcome of the two awaited
upstream calls (`exchangeCodeForTokens` then `getUserInfo`), whose thrown
errors the surrounding try/catch turns into a 500 `server_error`;
`newAuthCode` is the fresh random string from
`cryptoService.generateState()`. -/
def googleCallback (now : Nat) (newAuthCode : String)
    (qCode qState qError : Option String)
    (upstream : Except String (UserTokens × GoogleUserInfo))
    (st : Storage) : CallbackResult × Storage :=
  if ¬ jsFalsy qError then
    (.err 400 "access_denied"
       ("Google OAuth error: " ++ qError.getD ""), st)
  else if jsFalsy qCode then
    (.err 400 "invalid_request" "No authorization code received", st)
  else
    match upstream with
    | .error _ => (.err 500 "server_error" "Internal server error", st)
    | .ok (googleTokens, userInfo) =>
        let st1 := Storage.storeUserTokens userInfo.id googleTokens st
        match Storage.getAuthorizationRequest now (qState.getD "") st1 with
        | (none, st2) =>
            (.err 400 "invalid_request" "No authorization request found", st2)
        | (some authRequest, st2) =>
            let st3 := Storage.storeAuthorizationCode now newAuthCode
              authRequest.request userInfo.id st2
            (.redirect authRequest.request.redirect_uri newAuthCode
               authRequest.request.state, st3)

theorem SMap.get_erase_self {V : Type} (m : SMap V) (k : String) :
    SMap.get (SMap.erase m k) k = none := by
  induction m with
  | nil => rfl
  | cons hd tl ih =>
      obtain ⟨k0, v⟩ := hd
      by_cases hk : k0 = k
      · simpa [SMap.erase, hk] using ih
      · simpa [SMap.erase, SMap.get, hk] using ih

theorem SMap.get_set_self {V : Type} (m : SMap V) (k : String) (v : V) :
    SMap.get (SMap.set m k v) k = some v := by
  induction m with
  | nil => simp [SMap.set, SMap.get]
  | cons hd tl ih =>
      obtain ⟨k0, v0⟩ := hd
      by_cases hk : k0 = k
      · simp [SMap.set, SMap.get, hk]
      · simpa [SMap.set, SMap.get, hk] using ih

theorem SMap.get_set_ne {V : Type} (m : SMap V) (k k' : String) (v : V)
    (h : k ≠ k') : SMap.get (SMap.set m k v) k' = SMap.get m k' := by
  induction m with
  | nil => simp [SMap.set, SMap.get, h]
  | cons hd tl ih =>
      obtain ⟨k0, v0⟩ := hd
      by_cases hk : k0 = k
      · subst hk
        simp [SMap.set, SMap.get, h]
      · simp [SMap.set, SMap.get, hk, ih]

/-- A false truthiness test names a nonempty present string. -/
theorem jsFalsy_eq_false {o : Option String} (h : jsFalsy o = false) :
    ∃ s, o = some s ∧ s ≠ "" := by
  cases o with
  | none => simp [jsFalsy] at h
  | some s =>
      refine ⟨s, rfl, ?_⟩
      simpa [jsFalsy] using h

/-- When `consumeAuthorizationCode` returns a record, the resulting store
no longer holds the code. -/
theorem consume_some_absent (now : Nat) (code : String) (st : Storage)
    (rec : AuthCodeRecord) (st1 : Storage)
    (h : Storage.consumeAuthorizationCode now code st = (some rec, st1)) :
    SMap.get st1.authorizationCodes code = none := by
  cases hg : SMap.get st.authorizationCodes code with
  | none =>
      simp [Storage.consumeAuthorizationCode, Storage.getAuthorizationCode,
        hg] at h
  | some rec0 =>
      by_cases hexp : rec0.expires_at < now
      · simp [Storage.consumeAuthorizationCode, Storage.getAuthorizationCode,
          hg, hexp] at h
      · simp only [Storage.consumeAuthorizationCode,
          Storage.getAuthorizationCode, hg, if_neg hexp, Prod.mk.injEq] at h
        obtain ⟨-, hst⟩ := h
        rw [← hst]
        exact SMap.get_erase_self _ _

/-- When the store lacks the code, a well-formed authorization_code
exchange at `/token` answers `invalid_grant`. -/
theorem exchange_absent (cfg : Config) (pkce : String → String → Bool)
    (now : Nat) (rt : String) (body : TokenRequest) (st : Storage)
    (hg : body.grant_type = some "authorization_code")
    (hr : body.resource = some cfg.mcpResourceId)
    (hcf : jsFalsy body.code = false)
    (hcid : jsFalsy body.client_id = false)
    (hcv : jsFalsy body.code_verifier = false)
    (habs : SMap.get st.authorizationCodes (body.code.getD "") = none) :
    postToken cfg pkce now rt body st =
      (.err 400 "invalid_grant" "Invalid or expired authorization code", st) := by
  obtain ⟨c, hc, hcne⟩ := jsFalsy_eq_false hcf
  obtain ⟨ci, hci, hcine⟩ := jsFalsy_eq_false hcid
  obtain ⟨cv, hcvx, hcvne⟩ := jsFalsy_eq_false hcv
  rw [hc] at habs
  simp only [Option.getD_some] at habs
  simp [postToken, hr, hg, handleAuthorizationCodeGrant, jsFalsy, hc, hcne,
    hci, hcine, hcvx, hcvne, Storage.consumeAuthorizationCode,
    Storage.getAuthorizationCode, habs]

/-- C4: a `POST /token` request whose `resource` differs from the
configured resource identifier gets 400 `invalid_request` for every
`grant_type` (the grant type is arbitrary here, including unsupported
ones), and the store is returned unchanged: no grant-specific processing
or store mutation happens. -/
theorem token_resource_gate (cfg : Config)
    (pkce : String → String → Bool) (now : Nat) (rt : String)
    (body : TokenRequest) (st : Storage)
    (h : body.resource ≠ some cfg.mcpResourceId) :
    postToken cfg pkce now rt body st =
      (.err 400 "invalid_request"
         ("Invalid resource. Expected: " ++ cfg.mcpResourceId), st) := by
  simp [postToken, h]

/-- Witness for C4 at a concrete request. -/
theorem token_resource_gate_witness :
    postToken
      { issuer := "http://localhost:3080"
        mcpResourceId := "http://localhost:3002" }
      (fun _ _ => true) 1000 "rt1"
      { grant_type := some "bogus_grant", code := none, redirect_uri := none
        client_id := some "c1", code_verifier := none, refresh_token := none
        resource := some "http://evil" }
      Storage.empty
    = (.err 400 "invalid_request"
         ("Invalid resource. Expected: " ++ "http://localhost:3002"),
       Storage.empty) :=
  token_resource_gate _ _ _ _ _ _ (by decide)

/-- C5: a successful `refresh_token` grant mints a new access token whose
subject is the stored record's `user_id` and whose scope is the stored
scope, and returns the store wholly unchanged: the refresh token is not
rotated or deleted, so it remains valid for further refresh grants. -/
theorem refresh_grant_no_rotation (cfg : Config)
    (pkce : String → String → Bool) (now : Nat) (rt : String)
    (body : TokenRequest) (st : Storage) (t : String)
    (rec : RefreshTokenRecord)
    (hg : body.grant_type = some "refresh_token")
    (hr : body.resource = some cfg.mcpResourceId)
    (ht : body.refresh_token = some t) (htne : t ≠ "")
    (hrec : SMap.get st.refreshTokens t = some rec)
    (hexp : ¬ rec.expires_at < now)
    (hcid : body.client_id = some rec.client_id)
    (hcne : rec.client_id ≠ "") :
    postToken cfg pkce now rt body st =
      (.ok { access_token :=
               { iss := cfg.issuer, sub := rec.user_id
                 aud := cfg.mcpResourceId, exp := now / 1000 + 3600
                 iat := now / 1000, scope := rec.scope
                 client_id := rec.client_id, auth_time := now / 1000 }
             token_type := "Bearer", expires_in := 3600
             refresh_token := none, scope := rec.scope },
       st) := by
  simp [postToken, hr, hg, handleRefreshTokenGrant, jsFalsy, ht, htne, hcid,
    hcne, Storage.getRefreshToken, hrec, hexp, generateAccessToken]

/-- Witness for C5 at a concrete store and request. -/
theorem refresh_grant_no_rotation_witness :
    postToken
      { issuer := "http://localhost:3080"
        mcpResourceId := "http://localhost:3002" }
      (fun _ _ => true) 5000000 "rtNew"
      { grant_type := some "refresh_token", code := none
        redirect_uri := none, client_id := some "clientA"
        code_verifier := none, refresh_token := some "tok1"
        resource := some "http://localhost:3002" }
      { Storage.empty with refreshTokens :=
          [("tok1", { user_id := "user9", client_id := "clientA"
                      scope := "calendar.read", expires_at := 6000000 })] }
    = (.ok { access_token :=
               { iss := "http://localhost:3080", sub := "user9"
                 aud := "http://localhost:3002", exp := 8600
                 iat := 5000, scope := "calendar.read"
                 client_id := "clientA", auth_time := 5000 }
             token_type := "Bearer", expires_in := 3600
             refresh_token := none, scope := "calendar.read" },
       { Storage.empty with refreshTokens :=
           [("tok1", { user_id := "user9", client_id := "clientA"
                       scope := "calendar.read", expires_at := 6000000 })] }) :=
  refresh_grant_no_rotation
    { issuer := "http://localhost:3080"
      mcpResourceId := "http://localhost:3002" }
    (fun _ _ => true) 5000000 "rtNew"
    { grant_type := some "refresh_token", code := none
      redirect_uri := none, client_id := some "clientA"
      code_verifier := none, refresh_token := some "tok1"
      resource := some "http://localhost:3002" }
    { Storage.empty with refreshTokens :=
        [("tok1", { user_id := "user9", client_id := "clientA"
                    scope := "calendar.read", expires_at := 6000000 })] }
    "tok1"
    { user_id := "user9", client_id := "clientA"
      scope := "calendar.read", expires_at := 6000000 }
    rfl rfl rfl (by decide) (by decide) (by decide) rfl (by decide)

/-- C6: a successful authorization_code exchange at `/token` answers with
an access token whose claims are issuer = the server's identity, subject =
the code's `user_id`, audience = the `resource` parameter (the configured
resource id, forced by the gate), scope and `client_id` from the code
record, `auth_time` = issued-at, and expiry = issued-at + 3600 seconds;
the response carries `token_type` Bearer, `expires_in` 3600 and the fresh
refresh token, which is stored with a 24-hour expiry. -/
theorem authcode_grant_token (cfg : Config)
    (pkce : String → String → Bool) (now : Nat) (rt : String)
    (body : TokenRequest) (st : Storage) (code : String)
    (rec : AuthCodeRecord) (verifier : String)
    (hg : body.grant_type = some "authorization_code")
    (hr : body.resource = some cfg.mcpResourceId)
    (hc : body.code = some code) (hcne : code ≠ "")
    (hrec : SMap.get st.authorizationCodes code = some rec)
    (hexp : ¬ rec.expires_at < now)
    (hcid : body.client_id = some rec.request.client_id)
    (hcidne : rec.request.client_id ≠ "")
    (hredir : body.redirect_uri = some rec.request.redirect_uri)
    (hcv : body.code_verifier = some verifier) (hvne : verifier ≠ "")
    (hpk : pkce verifier rec.request.code_challenge = true) :
    (postToken cfg pkce now rt body st).1 =
      .ok { access_token :=
              { iss := cfg.issuer, sub := rec.user_id
                aud := cfg.mcpResourceId, exp := now / 1000 + 3600
                iat := now / 1000, scope := rec.request.scope
                client_id := rec.request.client_id
                auth_time := now / 1000 }
            token_type := "Bearer", expires_in := 3600
            refresh_token := some rt, scope := rec.request.scope }
    ∧ SMap.get (postToken cfg pkce now rt body st).2.refreshTokens rt =
        some { user_id := rec.user_id, client_id := rec.request.client_id
               scope := rec.request.scope
               expires_at := now + 24 * 60 * 60 * 1000 } := by
  constructor
  · simp [postToken, hr, hg, handleAuthorizationCodeGrant, jsFalsy, hc, hcne,
      hcid, hcidne, hredir, hcv, hvne, hpk, Storage.consumeAuthorizationCode,
      Storage.getAuthorizationCode, hrec, hexp, generateAccessToken]
  · simp [postToken, hr, hg, handleAuthorizationCodeGrant, jsFalsy, hc, hcne,
      hcid, hcidne, hredir, hcv, hvne, hpk, Storage.consumeAuthorizationCode,
      Storage.getAuthorizationCode, hrec, hexp, Storage.storeRefreshToken,
      SMap.get_set_self]

/-- Witness for C6 at a concrete store and request. -/
theorem authcode_grant_token_witness :
    (postToken
      { issuer := "http://localhost:3080"
        mcpResourceId := "http://localhost:3002" }
      (fun v c => v ++ "-challenge" = c) 7000000 "rt7"
      { grant_type := some "authorization_code", code := some "codeX"
        redirect_uri := some "http://localhost:8080/cb"
        client_id := some "clientB", code_verifier := some "ver"
        refresh_token := none, resource := some "http://localhost:3002" }
      { Storage.empty with authorizationCodes :=
          [("codeX",
            { request :=
                { client_id := "clientB", response_type := "code"
                  redirect_uri := "http://localhost:8080/cb"
                  scope := "calendar.read calendar.write", state := "s1"
                  code_challenge := "ver-challenge"
                  code_challenge_method := "S256"
                  resource := "http://localhost:3002" }
              user_id := "user3", expires_at := 7300000 })] }).1 =
      .ok { access_token :=
              { iss := "http://localhost:3080", sub := "user3"
                aud := "http://localhost:3002", exp := 10600
                iat := 7000, scope := "calendar.read calendar.write"
                client_id := "clientB", auth_time := 7000 }
            token_type := "Bearer", expires_in := 3600
            refresh_token := some "rt7"
            scope := "calendar.read calendar.write" }
    ∧ SMap.get (postToken
      { issuer := "http://localhost:3080"
        mcpResourceId := "http://localhost:3002" }
      (fun v c => v ++ "-challenge" = c) 7000000 "rt7"
      { grant_type := some "authorization_code", code := some "codeX"
        redirect_uri := some "http://localhost:8080/cb"
        client_id := some "clientB", code_verifier := some "ver"
        refresh_token := none, resource := some "http://localhost:3002" }
      { Storage.empty with authorizationCodes :=
          [("codeX",
            { request :=
                { client_id := "clientB", response_type := "code"
                  redirect_uri := "http://localhost:8080/cb"
                  scope := "calendar.read calendar.write", state := "s1"
                  code_challenge := "ver-challenge"
                  code_challenge_method := "S256"
                  resource := "http://localhost:3002" }
              user_id := "user3", expires_at := 7300000 })] }).2.refreshTokens
      "rt7" =
      some { user_id := "user3", client_id := "clientB"
             scope := "calendar.read calendar.write"
             expires_at := 7000000 + 24 * 60 * 60 * 1000 } :=
  authcode_grant_token
    { issuer := "http://localhost:3080"
      mcpResourceId := "http://localhost:3002" }
    (fun v c => v ++ "-challenge" = c) 7000000 "rt7"
    { grant_type := some "authorization_code", code := some "codeX"
      redirect_uri := some "http://localhost:8080/cb"
      client_id := some "clientB", code_verifier := some "ver"
      refresh_token := none, resource := some "http://localhost:3002" }
    { Storage.empty with authorizationCodes :=
        [("codeX",
          { request :=
              { client_id := "clientB", response_type := "code"
                redirect_uri := "http://localhost:8080/cb"
                scope := "calendar.read calendar.write", state := "s1"
                code_challenge := "ver-challenge"
                code_challenge_method := "S256"
                resource := "http://localhost:3002" }
            user_id := "user3", expires_at := 7300000 })] }
    "codeX"
    { request :=
        { client_id := "clientB", response_type := "code"
          redirect_uri := "http://localhost:8080/cb"
          scope := "calendar.read calendar.write", state := "s1"
          code_challenge := "ver-challenge"
          code_challenge_method := "S256"
          resource := "http://localhost:3002" }
      user_id := "user3", expires_at := 7300000 }
    "ver"
    rfl rfl rfl (by decide) (by decide) (by decide) rfl (by decide) rfl rfl
    (by decide) (by decide)

/-- C2: when the stored authorization code has passed its expiry
(`expires_at < now`, i.e. the code was issued more than 10 minutes before
the attempt), a well-formed authorization_code exchange answers
`invalid_grant` whatever the `client_id`, `redirect_uri` and
`code_verifier` are, and the expired entry is removed from the store by
that read. -/
theorem expired_code_invalid_grant (cfg : Config)
    (pkce : String → String → Bool) (now : Nat) (rt : String)
    (body : TokenRequest) (st : Storage) (code : String)
    (rec : AuthCodeRecord)
    (hg : body.grant_type = some "authorization_code")
    (hr : body.resource = some cfg.mcpResourceId)
    (hc : body.code = some code) (hcne : code ≠ "")
    (hcid : jsFalsy body.client_id = false)
    (hcv : jsFalsy body.code_verifier = false)
    (hrec : SMap.get st.authorizationCodes code = some rec)
    (hexp : rec.expires_at < now) :
    (postToken cfg pkce now rt body st).1 =
      .err 400 "invalid_grant" "Invalid or expired authorization code"
    ∧ SMap.get (postToken cfg pkce now rt body st).2.authorizationCodes
        code = none := by
  obtain ⟨ci, hci, hcine⟩ := jsFalsy_eq_false hcid
  obtain ⟨cv, hcvx, hcvne⟩ := jsFalsy_eq_false hcv
  constructor
  · simp [postToken, hr, hg, handleAuthorizationCodeGrant, jsFalsy, hc, hcne,
      hci, hcine, hcvx, hcvne, Storage.consumeAuthorizationCode,
      Storage.getAuthorizationCode, hrec, hexp]
  · simp [postToken, hr, hg, handleAuthorizationCodeGrant, jsFalsy, hc, hcne,
      hci, hcine, hcvx, hcvne, Storage.consumeAuthorizationCode,
      Storage.getAuthorizationCode, hrec, hexp, SMap.get_erase_self]

/-- Witness for C2: an expired code with all-correct other parameters. -/
theorem expired_code_invalid_grant_witness :
    (postToken
      { issuer := "http://localhost:3080"
        mcpResourceId := "http://localhost:3002" }
      (fun v c => v ++ "-challenge" = c) 9000000 "rt9"
      { grant_type := some "authorization_code", code := some "codeY"
        redirect_uri := some "http://localhost:8080/cb"
        client_id := some "clientB", code_verifier := some "ver"
        refresh_token := none, resource := some "http://localhost:3002" }
      { Storage.empty with authorizationCodes :=
          [("codeY",
            { request :=
                { client_id := "clientB", response_type := "code"
                  redirect_uri := "http://localhost:8080/cb"
                  scope := "calendar.read", state := "s2"
                  code_challenge := "ver-challenge"
                  code_challenge_method := "S256"
                  resource := "http://localhost:3002" }
              user_id := "user3", expires_at := 8999999 })] }).1 =
      .err 400 "invalid_grant" "Invalid or expired authorization code"
    ∧ SMap.get (postToken
      { issuer := "http://localhost:3080"
        mcpResourceId := "http://localhost:3002" }
      (fun v c => v ++ "-challenge" = c) 9000000 "rt9"
      { grant_type := some "authorization_code", code := some "codeY"
        redirect_uri := some "http://localhost:8080/cb"
        client_id := some "clientB", code_verifier := some "ver"
        refresh_token := none, resource := some "http://localhost:3002" }
      { Storage.empty with authorizationCodes :=
          [("codeY",
            { request :=
                { client_id := "clientB", response_type := "code"
                  redirect_uri := "http://localhost:8080/cb"
                  scope := "calendar.read", state := "s2"
                  code_challenge := "ver-challenge"
                  code_challenge_method := "S256"
                  resource := "http://localhost:3002" }
              user_id := "user3", expires_at := 8999999 })] }).2.authorizationCodes
        "codeY" = none :=
  expired_code_invalid_grant
    { issuer := "http://localhost:3080"
      mcpResourceId := "http://localhost:3002" }
    (fun v c => v ++ "-challenge" = c) 9000000 "rt9"
    { grant_type := some "authorization_code", code := some "codeY"
      redirect_uri := some "http://localhost:8080/cb"
      client_id := some "clientB", code_verifier := some "ver"
      refresh_token := none, resource := some "http://localhost:3002" }
    { Storage.empty with authorizationCodes :=
        [("codeY",
          { request :=
              { client_id := "clientB", response_type := "code"
                redirect_uri := "http://localhost:8080/cb"
                scope := "calendar.read", state := "s2"
                code_challenge := "ver-challenge"
                code_challenge_method := "S256"
                resource := "http://localhost:3002" }
            user_id := "user3", expires_at := 8999999 })] }
    "codeY"
    { request :=
        { client_id := "clientB", response_type := "code"
          redirect_uri := "http://localhost:8080/cb"
          scope := "calendar.read", state := "s2"
          code_challenge := "ver-challenge"
          code_challenge_method := "S256"
          resource := "http://localhost:3002" }
      user_id := "user3", expires_at := 8999999 }
    rfl rfl rfl (by decide) (by decide) (by decide) rfl (by decide)

/-- A successful authorization_code grant leaves the exchanged code absent
from the resulting store (inversion on the handler's success). -/
theorem authCodeGrant_ok_absent (issuer : String)
    (pkce : String → String → Bool) (now : Nat) (rt resource : String)
    (body : TokenRequest) (st : Storage) (b : TokenResponse) (st' : Storage)
    (h : handleAuthorizationCodeGrant issuer pkce now rt resource body st =
          (.ok b, st')) :
    jsFalsy body.code = false ∧
      SMap.get st'.authorizationCodes (body.code.getD "") = none := by
  by_cases h1 :
      (jsFalsy body.code || jsFalsy body.client_id
        || jsFalsy body.code_verifier) = true
  · simp [handleAuthorizationCodeGrant, h1] at h
  · have h1' :
        (jsFalsy body.code || jsFalsy body.client_id
          || jsFalsy body.code_verifier) = false := by
      simpa using h1
    rcases hp : Storage.consumeAuthorizationCode now (body.code.getD "") st
      with ⟨o, st1⟩
    cases o with
    | none => simp [handleAuthorizationCodeGrant, h1', hp] at h
    | some rec =>
        have habs : SMap.get st1.authorizationCodes (body.code.getD "") =
            none := consume_some_absent _ _ _ _ _ hp
        have hcf : jsFalsy body.code = false := by
          rcases Bool.or_eq_false_iff.mp h1' with ⟨h2, -⟩
          exact (Bool.or_eq_false_iff.mp h2).1
        refine ⟨hcf, ?_⟩
        simp only [handleAuthorizationCodeGrant, h1', Bool.false_eq_true,
          if_false, hp] at h
        split at h
        · simp at h
        · split at h
          · simp at h
          · split at h
            · simp at h
            · simp only [Prod.mk.injEq] at h
              obtain ⟨-, hst⟩ := h
              rw [← hst]
              simpa [Storage.storeRefreshToken] using habs

/-- C1: once an authorization_code exchange at `/token` has succeeded, the
code is gone from the store (the consume retrieved-and-deleted it), so
every subsequent well-formed exchange attempt with the same code answers
`invalid_grant`. -/
theorem code_single_use (cfg : Config) (pkce : String → String → Bool)
    (now : Nat) (rt : String) (body : TokenRequest) (st : Storage)
    (b : TokenResponse) (st' : Storage)
    (h : postToken cfg pkce now rt body st = (.ok b, st'))
    (hg : body.grant_type = some "authorization_code")
    (pkce2 : String → String → Bool) (now2 : Nat) (rt2 : String)
    (body2 : TokenRequest)
    (h2g : body2.grant_type = some "authorization_code")
    (h2r : body2.resource = some cfg.mcpResourceId)
    (h2c : body2.code = body.code)
    (h2cid : jsFalsy body2.client_id = false)
    (h2cv : jsFalsy body2.code_verifier = false) :
    (postToken cfg pkce2 now2 rt2 body2 st').1 =
      .err 400 "invalid_grant" "Invalid or expired authorization code" := by
  by_cases hres : body.resource = some cfg.mcpResourceId
  · have h' : handleAuthorizationCodeGrant cfg.issuer pkce now rt
        cfg.mcpResourceId body st = (.ok b, st') := by
      simpa [postToken, hres, hg] using h
    obtain ⟨hcf, habs⟩ :=
      authCodeGrant_ok_absent cfg.issuer pkce now rt cfg.mcpResourceId
        body st b st' h'
    have h2 := exchange_absent cfg pkce2 now2 rt2 body2 st' h2g h2r
      (by rw [h2c]; exact hcf) h2cid h2cv (by rw [h2c]; exact habs)
    rw [h2]
  · simp [postToken, hres] at h

/-- Witness for C1: a concrete successful exchange followed by a replay of
the same code, which answers `invalid_grant`. -/
theorem code_single_use_witness :
    (postToken
      { issuer := "http://localhost:3080"
        mcpResourceId := "http://localhost:3002" }
      (fun v c => v ++ "-challenge" = c) 8000000 "rtB"
      { grant_type := some "authorization_code", code := some "codeZ"
        redirect_uri := some "http://localhost:8080/cb"
        client_id := some "clientB", code_verifier := some "ver"
        refresh_token := none, resource := some "http://localhost:3002" }
      { clients := [], authorizationCodes := []
        refreshTokens :=
          [("rtA", { user_id := "user3", client_id := "clientB"
                     scope := "calendar.read", expires_at := 93400000 })]
        authorizationRequests := [], userTokens := [] }).1 =
      .err 400 "invalid_grant" "Invalid or expired authorization code" :=
  code_single_use
    { issuer := "http://localhost:3080"
      mcpResourceId := "http://localhost:3002" }
    (fun v c => v ++ "-challenge" = c) 7000000 "rtA"
    { grant_type := some "authorization_code", code := some "codeZ"
      redirect_uri := some "http://localhost:8080/cb"
      client_id := some "clientB", code_verifier := some "ver"
      refresh_token := none, resource := some "http://localhost:3002" }
    { Storage.empty with authorizationCodes :=
        [("codeZ",
          { request :=
              { client_id := "clientB", response_type := "code"
                redirect_uri := "http://localhost:8080/cb"
                scope := "calendar.read", state := "s3"
                code_challenge := "ver-challenge"
                code_challenge_method := "S256"
                resource := "http://localhost:3002" }
            user_id := "user3", expires_at := 7300000 })] }
    { access_token :=
        { iss := "http://localhost:3080", sub := "user3"
          aud := "http://localhost:3002", exp := 10600, iat := 7000
          scope := "calendar.read", client_id := "clientB"
          auth_time := 7000 }
      token_type := "Bearer", expires_in := 3600
      refresh_token := some "rtA", scope := "calendar.read" }
    { clients := [], authorizationCodes := []
      refreshTokens :=
        [("rtA", { user_id := "user3", client_id := "clientB"
                   scope := "calendar.read", expires_at := 93400000 })]
      authorizationRequests := [], userTokens := [] }
    (by decide) rfl
    (fun v c => v ++ "-challenge" = c) 8000000 "rtB"
    { grant_type := some "authorization_code", code := some "codeZ"
      redirect_uri := some "http://localhost:8080/cb"
      client_id := some "clientB", code_verifier := some "ver"
      refresh_token := none, resource := some "http://localhost:3002" }
    rfl rfl rfl (by decide) (by decide)

/-- C9: in the authorization_code grant the code is consumed before the
client_id / redirect_uri / PKCE checks, so when any of those checks fails
with `invalid_grant`, the store no longer holds the code and every later
well-formed exchange with the same code also answers `invalid_grant`. -/
theorem failed_exchange_consumes_code (cfg : Config)
    (pkce : String → String → Bool) (now : Nat) (rt : String)
    (body : TokenRequest) (st : Storage) (code : String)
    (rec : AuthCodeRecord)
    (hg : body.grant_type = some "authorization_code")
    (hr : body.resource = some cfg.mcpResourceId)
    (hc : body.code = some code) (hcne : code ≠ "")
    (hcid : jsFalsy body.client_id = false)
    (hcv : jsFalsy body.code_verifier = false)
    (hrec : SMap.get st.authorizationCodes code = some rec)
    (hexp : ¬ rec.expires_at < now)
    (hfail : some rec.request.client_id ≠ body.client_id
      ∨ some rec.request.redirect_uri ≠ body.redirect_uri
      ∨ pkce (body.code_verifier.getD "") rec.request.code_challenge
          = false) :
    (∃ d, (postToken cfg pkce now rt body st).1 =
        .err 400 "invalid_grant" d)
    ∧ SMap.get (postToken cfg pkce now rt body st).2.authorizationCodes
        code = none
    ∧ ∀ (pkce2 : String → String → Bool) (now2 : Nat) (rt2 : String)
        (body2 : TokenRequest),
        body2.grant_type = some "authorization_code" →
        body2.resource = some cfg.mcpResourceId →
        body2.code = some code →
        jsFalsy body2.client_id = false →
        jsFalsy body2.code_verifier = false →
        (postToken cfg pkce2 now2 rt2 body2
            (postToken cfg pkce now rt body st).2).1 =
          .err 400 "invalid_grant" "Invalid or expired authorization code" := by
  obtain ⟨ci, hci, hcine⟩ := jsFalsy_eq_false hcid
  obtain ⟨cv, hcvx, hcvne⟩ := jsFalsy_eq_false hcv
  have hmain : ∃ d, postToken cfg pkce now rt body st =
      (.err 400 "invalid_grant" d,
       { st with authorizationCodes :=
           SMap.erase st.authorizationCodes code }) := by
    by_cases c1 : rec.request.client_id = ci
    · by_cases c2 : some rec.request.redirect_uri = body.redirect_uri
      · by_cases c3 : pkce cv rec.request.code_challenge = true
        · rcases hfail with hf | hf | hf
          · exact absurd (by rw [hci, c1]) hf
          · exact absurd c2 hf
          · rw [hcvx] at hf
            simp only [Option.getD_some] at hf
            exact absurd (c3.symm.trans hf) (by decide)
        · refine ⟨"Invalid code verifier", ?_⟩
          simp [postToken, hr, hg, handleAuthorizationCodeGrant, jsFalsy,
            hc, hcne, hci, hcine, hcvx, hcvne,
            Storage.consumeAuthorizationCode, Storage.getAuthorizationCode,
            hrec, hexp, c1, c2, c3]
      · refine ⟨"Redirect URI mismatch", ?_⟩
        simp [postToken, hr, hg, handleAuthorizationCodeGrant, jsFalsy,
          hc, hcne, hci, hcine, hcvx, hcvne,
          Storage.consumeAuthorizationCode, Storage.getAuthorizationCode,
          hrec, hexp, c1, c2]
    · refine ⟨"Client ID mismatch", ?_⟩
      simp [postToken, hr, hg, handleAuthorizationCodeGrant, jsFalsy,
        hc, hcne, hci, hcine, hcvx, hcvne,
        Storage.consumeAuthorizationCode, Storage.getAuthorizationCode,
        hrec, hexp, c1]
  obtain ⟨d, hmain⟩ := hmain
  refine ⟨⟨d, by rw [hmain]⟩, ?_, ?_⟩
  · rw [hmain]
    exact SMap.get_erase_self _ _
  · intro pkce2 now2 rt2 body2 h2g h2r h2c h2cid h2cv
    rw [hmain]
    have h2 := exchange_absent cfg pkce2 now2 rt2 body2
      { st with authorizationCodes := SMap.erase st.authorizationCodes code }
      h2g h2r (by simp [jsFalsy, h2c, hcne]) h2cid h2cv
      (by rw [h2c]
          simp only [Option.getD_some]
          exact SMap.get_erase_self _ _)
    rw [h2]

/-- Witness for C9: a concrete exchange failing the client_id check still
consumes the code, and a later all-correct exchange answers
`invalid_grant`. -/
theorem failed_exchange_consumes_code_witness :
    (∃ d, (postToken
      { issuer := "http://localhost:3080"
        mcpResourceId := "http://localhost:3002" }
      (fun v c => v ++ "-challenge" = c) 7000000 "rtA"
      { grant_type := some "authorization_code", code := some "codeW"
        redirect_uri := some "http://localhost:8080/cb"
        client_id := some "clientEvil", code_verifier := some "ver"
        refresh_token := none, resource := some "http://localhost:3002" }
      { Storage.empty with authorizationCodes :=
          [("codeW",
            { request :=
                { client_id := "clientB", response_type := "code"
                  redirect_uri := "http://localhost:8080/cb"
                  scope := "calendar.read", state := "s4"
                  code_challenge := "ver-challenge"
                  code_challenge_method := "S256"
                  resource := "http://localhost:3002" }
              user_id := "user3", expires_at := 7300000 })] }).1 =
        .err 400 "invalid_grant" d)
    ∧ SMap.get (postToken
      { issuer := "http://localhost:3080"
        mcpResourceId := "http://localhost:3002" }
      (fun v c => v ++ "-challenge" = c) 7000000 "rtA"
      { grant_type := some "authorization_code", code := some "codeW"
        redirect_uri := some "http://localhost:8080/cb"
        client_id := some "clientEvil", code_verifier := some "ver"
        refresh_token := none, resource := some "http://localhost:3002" }
      { Storage.empty with authorizationCodes :=
          [("codeW",
            { request :=
                { client_id := "clientB", response_type := "code"
                  redirect_uri := "http://localhost:8080/cb"
                  scope := "calendar.read", state := "s4"
                  code_challenge := "ver-challenge"
                  code_challenge_method := "S256"
                  resource := "http://localhost:3002" }
              user_id := "user3", expires_at := 7300000 })] }).2.authorizationCodes
        "codeW" = none
    ∧ ∀ (pkce2 : String → String → Bool) (now2 : Nat) (rt2 : String)
        (body2 : TokenRequest),
        body2.grant_type = some "authorization_code" →
        body2.resource = some "http://localhost:3002" →
        body2.code = some "codeW" →
        jsFalsy body2.client_id = false →
        jsFalsy body2.code_verifier = false →
        (postToken
          { issuer := "http://localhost:3080"
            mcpResourceId := "http://localhost:3002" }
          pkce2 now2 rt2 body2
          (postToken
            { issuer := "http://localhost:3080"
              mcpResourceId := "http://localhost:3002" }
            (fun v c => v ++ "-challenge" = c) 7000000 "rtA"
            { grant_type := some "authorization_code", code := some "codeW"
              redirect_uri := some "http://localhost:8080/cb"
              client_id := some "clientEvil", code_verifier := some "ver"
              refresh_token := none
              resource := some "http://localhost:3002" }
            { Storage.empty with authorizationCodes :=
                [("codeW",
                  { request :=
                      { client_id := "clientB", response_type := "code"
                        redirect_uri := "http://localhost:8080/cb"
                        scope := "calendar.read", state := "s4"
                        code_challenge := "ver-challenge"
                        code_challenge_method := "S256"
                        resource := "http://localhost:3002" }
                    user_id := "user3", expires_at := 7300000 })] }).2).1 =
          .err 400 "invalid_grant" "Invalid or expired authorization code" :=
  failed_exchange_consumes_code
    { issuer := "http://localhost:3080"
      mcpResourceId := "http://localhost:3002" }
    (fun v c => v ++ "-challenge" = c) 7000000 "rtA"
    { grant_type := some "authorization_code", code := some "codeW"
      redirect_uri := some "http://localhost:8080/cb"
      client_id := some "clientEvil", code_verifier := some "ver"
      refresh_token := none, resource := some "http://localhost:3002" }
    { Storage.empty with authorizationCodes :=
        [("codeW",
          { request :=
              { client_id := "clientB", response_type := "code"
                redirect_uri := "http://localhost:8080/cb"
                scope := "calendar.read", state := "s4"
                code_challenge := "ver-challenge"
                code_challenge_method := "S256"
                resource := "http://localhost:3002" }
            user_id := "user3", expires_at := 7300000 })] }
    "codeW"
    { request :=
        { client_id := "clientB", response_type := "code"
          redirect_uri := "http://localhost:8080/cb"
          scope := "calendar.read", state := "s4"
          code_challenge := "ver-challenge"
          code_challenge_method := "S256"
          resource := "http://localhost:3002" }
      user_id := "user3", expires_at := 7300000 }
    rfl rfl rfl (by decide) (by decide) (by decide) rfl (by decide)
    (Or.inl (by decide))

/-- C10: on the upstream callback the user's Google tokens are stored
before the pending AuthorizationRequest is looked up; when that lookup
fails (state unknown, or present but expired), the handler answers 400
`invalid_request`, yet the UpstreamTokenRecord has already been written,
while no authorization code is stored and no redirect occurs. -/
theorem callback_stores_tokens_before_state_check (now : Nat)
    (newAuthCode : String) (qCode qState qError : Option String)
    (tokens : UserTokens) (userInfo : GoogleUserInfo) (st : Storage)
    (herr : jsFalsy qError = true) (hcode : jsFalsy qCode = false)
    (hmiss : SMap.get st.authorizationRequests (qState.getD "") = none
      ∨ ∃ r, SMap.get st.authorizationRequests (qState.getD "") = some r
          ∧ r.expires_at ≤ now) :
    (googleCallback now newAuthCode qCode qState qError
        (.ok (tokens, userInfo)) st).1 =
      .err 400 "invalid_request" "No authorization request found"
    ∧ SMap.get (googleCallback now newAuthCode qCode qState qError
        (.ok (tokens, userInfo)) st).2.userTokens userInfo.id = some tokens
    ∧ (googleCallback now newAuthCode qCode qState qError
        (.ok (tokens, userInfo)) st).2.authorizationCodes =
        st.authorizationCodes := by
  obtain ⟨c, hcx, hcne⟩ := jsFalsy_eq_false hcode
  have hqe : qError = none ∨ qError = some "" := by
    cases qError with
    | none => exact Or.inl rfl
    | some e =>
        have he : e = "" := by simpa [jsFalsy] using herr
        exact Or.inr (by rw [he])
  rcases hmiss with hm | ⟨r, hm, hrexp⟩
  · rcases hqe with hqe | hqe <;> subst hqe <;>
      refine ⟨?_, ?_, ?_⟩ <;>
      simp [googleCallback, jsFalsy, hcx, hcne,
        Storage.getAuthorizationRequest, Storage.storeUserTokens, hm,
        SMap.get_set_self]
  · have hnlt : ¬ now < r.expires_at := not_lt.mpr hrexp
    rcases hqe with hqe | hqe <;> subst hqe <;>
      refine ⟨?_, ?_, ?_⟩ <;>
      simp [googleCallback, jsFalsy, hcx, hcne,
        Storage.getAuthorizationRequest, Storage.storeUserTokens, hm, hnlt,
        SMap.get_set_self]

/-- Witness for C10: a callback with an unknown state writes the user's
Google tokens, stores no code, and fails with `invalid_request`. -/
theorem callback_stores_tokens_before_state_check_witness :
    (googleCallback 7000000 "ac1" (some "gcode") (some "gsUnknown") none
        (.ok ({ access_token := "gAT", refresh_token := some "gRT"
                token_type := "Bearer", expiry_date := some 7600000 },
              { id := "user3", email := "u@x", name := "U"
                picture := none, verified_email := true }))
        Storage.empty).1 =
      .err 400 "invalid_request" "No authorization request found"
    ∧ SMap.get (googleCallback 7000000 "ac1" (some "gcode")
        (some "gsUnknown") none
        (.ok ({ access_token := "gAT", refresh_token := some "gRT"
                token_type := "Bearer", expiry_date := some 7600000 },
              { id := "user3", email := "u@x", name := "U"
                picture := none, verified_email := true }))
        Storage.empty).2.userTokens "user3" =
        some { access_token := "gAT", refresh_token := some "gRT"
               token_type := "Bearer", expiry_date := some 7600000 }
    ∧ (googleCallback 7000000 "ac1" (some "gcode") (some "gsUnknown") none
        (.ok ({ access_token := "gAT", refresh_token := some "gRT"
                token_type := "Bearer", expiry_date := some 7600000 },
              { id := "user3", email := "u@x", name := "U"
                picture := none, verified_email := true }))
        Storage.empty).2.authorizationCodes =
        Storage.empty.authorizationCodes :=
  callback_stores_tokens_before_state_check 7000000 "ac1" (some "gcode")
    (some "gsUnknown") none
    { access_token := "gAT", refresh_token := some "gRT"
      token_type := "Bearer", expiry_date := some 7600000 }
    { id := "user3", email := "u@x", name := "U"
      picture := none, verified_email := true }
    Storage.empty rfl (by decide) (Or.inl rfl)

/-- Counterexample to C3: a stored AuthorizationRequest is not consumed by
the callback's lookup — after a first successful callback with upstream
state "gs1", a second callback presenting the same state succeeds again
(redirects, issuing a second code) instead of failing with
`invalid_request`. -/
theorem authrequest_not_single_use_counterexample :
    (googleCallback 7000000 "ac1" (some "gcode") (some "gs1") none
        (.ok ({ access_token := "gAT", refresh_token := some "gRT"
                token_type := "Bearer", expiry_date := some 7600000 },
              { id := "user3", email := "u@x", name := "U"
                picture := none, verified_email := true }))
        { Storage.empty with authorizationRequests :=
            [("gs1",
              { request :=
                  { client_id := "clientB", response_type := "code"
                    redirect_uri := "http://localhost:8080/cb"
                    scope := "calendar.read", state := "s5"
                    code_challenge := "ch", code_challenge_method := "S256"
                    resource := "http://localhost:3002" }
                googleState := "gs1", expires_at := 7600000 })] }).1 =
      .redirect "http://localhost:8080/cb" "ac1" "s5"
    ∧ (googleCallback 7100000 "ac2" (some "gcode2") (some "gs1") none
        (.ok ({ access_token := "gAT2", refresh_token := some "gRT"
                token_type := "Bearer", expiry_date := some 7700000 },
              { id := "user3", email := "u@x", name := "U"
                picture := none, verified_email := true }))
        (googleCallback 7000000 "ac1" (some "gcode") (some "gs1") none
          (.ok ({ access_token := "gAT", refresh_token := some "gRT"
                  token_type := "Bearer", expiry_date := some 7600000 },
                { id := "user3", email := "u@x", name := "U"
                  picture := none, verified_email := true }))
          { Storage.empty with authorizationRequests :=
              [("gs1",
                { request :=
                    { client_id := "clientB", response_type := "code"
                      redirect_uri := "http://localhost:8080/cb"
                      scope := "calendar.read", state := "s5"
                      code_challenge := "ch", code_challenge_method := "S256"
                      resource := "http://localhost:3002" }
                  googleState := "gs1", expires_at := 7600000 })] }).2).1 =
      .redirect "http://localhost:8080/cb" "ac2" "s5" :=
  ⟨rfl, rfl⟩

/-- C3 amended: the stored AuthorizationRequest is looked up
non-destructively by the callback (`getAuthorizationRequest` deletes only
expired entries): a successful callback leaves the request in the store
under the same upstream state, and a second callback presenting that
state before its expiry also finds it and redirects with a fresh code. -/
theorem authrequest_reusable (now : Nat) (ac : String)
    (qCode qState : Option String) (tokens : UserTokens)
    (userInfo : GoogleUserInfo) (now2 : Nat) (ac2 : String)
    (qCode2 : Option String) (tokens2 : UserTokens)
    (userInfo2 : GoogleUserInfo) (st : Storage) (r : AuthReqRecord)
    (hcode : jsFalsy qCode = false) (hcode2 : jsFalsy qCode2 = false)
    (hreq : SMap.get st.authorizationRequests (qState.getD "") = some r)
    (hexp : now < r.expires_at) (hexp2 : now2 < r.expires_at) :
    (googleCallback now ac qCode qState none
        (.ok (tokens, userInfo)) st).1 =
      .redirect r.request.redirect_uri ac r.request.state
    ∧ SMap.get (googleCallback now ac qCode qState none
        (.ok (tokens, userInfo)) st).2.authorizationRequests
        (qState.getD "") = some r
    ∧ (googleCallback now2 ac2 qCode2 qState none
        (.ok (tokens2, userInfo2))
        (googleCallback now ac qCode qState none
          (.ok (tokens, userInfo)) st).2).1 =
      .redirect r.request.redirect_uri ac2 r.request.state := by
  obtain ⟨c, hcx, hcne⟩ := jsFalsy_eq_false hcode
  obtain ⟨c2, hcx2, hcne2⟩ := jsFalsy_eq_false hcode2
  refine ⟨?_, ?_, ?_⟩ <;>
    simp [googleCallback, jsFalsy, hcx, hcne, hcx2, hcne2,
      Storage.getAuthorizationRequest, Storage.storeUserTokens,
      Storage.storeAuthorizationCode, hreq, hexp, hexp2]

/-- Witness for the amended C3 at a concrete store and two callbacks. -/
theorem authrequest_reusable_witness :
    (googleCallback 7000000 "ac3" (some "gcode") (some "gs2") none
        (.ok ({ access_token := "gAT", refresh_token := none
                token_type := "Bearer", expiry_date := none },
              { id := "user4", email := "v@x", name := "V"
                picture := none, verified_email := false }))
        { Storage.empty with authorizationRequests :=
            [("gs2",
              { request :=
                  { client_id := "clientC", response_type := "code"
                    redirect_uri := "http://localhost:9090/cb"
                    scope := "calendar.write", state := "s6"
                    code_challenge := "ch2", code_challenge_method := "S256"
                    resource := "http://localhost:3002" }
                googleState := "gs2", expires_at := 7600000 })] }).1 =
      .redirect "http://localhost:9090/cb" "ac3" "s6"
    ∧ SMap.get (googleCallback 7000000 "ac3" (some "gcode") (some "gs2")
        none
        (.ok ({ access_token := "gAT", refresh_token := none
                token_type := "Bearer", expiry_date := none },
              { id := "user4", email := "v@x", name := "V"
                picture := none, verified_email := false }))
        { Storage.empty with authorizationRequests :=
            [("gs2",
              { request :=
                  { client_id := "clientC", response_type := "code"
                    redirect_uri := "http://localhost:9090/cb"
                    scope := "calendar.write", state := "s6"
                    code_challenge := "ch2", code_challenge_method := "S256"
                    resource := "http://localhost:3002" }
                googleState := "gs2", expires_at := 7600000 })] }).2.authorizationRequests
        "gs2" =
        some { request :=
                 { client_id := "clientC", response_type := "code"
                   redirect_uri := "http://localhost:9090/cb"
                   scope := "calendar.write", state := "s6"
                   code_challenge := "ch2", code_challenge_method := "S256"
                   resource := "http://localhost:3002" }
               googleState := "gs2", expires_at := 7600000 }
    ∧ (googleCallback 7200000 "ac4" (some "gcodeB") (some "gs2") none
        (.ok ({ access_token := "gAT2", refresh_token := none
                token_type := "Bearer", expiry_date := none },
              { id := "user4", email := "v@x", name := "V"
                picture := none, verified_email := false }))
        (googleCallback 7000000 "ac3" (some "gcode") (some "gs2") none
          (.ok ({ access_token := "gAT", refresh_token := none
                  token_type := "Bearer", expiry_date := none },
                { id := "user4", email := "v@x", name := "V"
                  picture := none, verified_email := false }))
          { Storage.empty with authorizationRequests :=
              [("gs2",
                { request :=
                    { client_id := "clientC", response_type := "code"
                      redirect_uri := "http://localhost:9090/cb"
                      scope := "calendar.write", state := "s6"
                      code_challenge := "ch2", code_challenge_method := "S256"
                      resource := "http://localhost:3002" }
                  googleState := "gs2", expires_at := 7600000 })] }).2).1 =
      .redirect "http://localhost:9090/cb" "ac4" "s6" :=
  authrequest_reusable 7000000 "ac3" (some "gcode") (some "gs2")
    { access_token := "gAT", refresh_token := none
      token_type := "Bearer", expiry_date := none }
    { id := "user4", email := "v@x", name := "V"
      picture := none, verified_email := false }
    7200000 "ac4" (some "gcodeB")
    { access_token := "gAT2", refresh_token := none
      token_type := "Bearer", expiry_date := none }
    { id := "user4", email := "v@x", name := "V"
      picture := none, verified_email := false }
    { Storage.empty with authorizationRequests :=
        [("gs2",
          { request :=
              { client_id := "clientC", response_type := "code"
                redirect_uri := "http://localhost:9090/cb"
                scope := "calendar.write", state := "s6"
                code_challenge := "ch2", code_challenge_method := "S256"
                resource := "http://localhost:3002" }
            googleState := "gs2", expires_at := 7600000 })] }
    { request :=
        { client_id := "clientC", response_type := "code"
          redirect_uri := "http://localhost:9090/cb"
          scope := "calendar.write", state := "s6"
          code_challenge := "ch2", code_challenge_method := "S256"
          resource := "http://localhost:3002" }
      googleState := "gs2", expires_at := 7600000 }
    (by decide) (by decide) rfl (by decide) (by decide)

/-- Counterexample to C7: a fully valid `/authorize` request with
`scope = "calendar.read"` and `resource = "http://localhost:3002"` is
answered with a redirect to the upstream consent URL, but that URL's
query parameters contain neither the request's `scope` value nor its
`resource` value — `generateAuthUrl` encodes only the fresh upstream
state and a fixed set of Google scopes. -/
theorem authorize_url_counterexample :
    (getAuthorize
      { issuer := "http://localhost:3080"
        mcpResourceId := "http://localhost:3002" }
      { clientId := "gcid.apps.googleusercontent.com"
        clientSecret := "gsec"
        redirectUri := "http://localhost:3080/oauth/google/callback" }
      "gs1" 7000000
      { client_id := some "clientB", response_type := some "code"
        redirect_uri := some "http://localhost:8080/cb"
        scope := some "calendar.read", state := some "s7"
        code_challenge := some "ch", code_challenge_method := some "S256"
        resource := some "http://localhost:3002" }
      { Storage.empty with clients :=
          [("clientB",
            { client_id := "clientB", client_name := "app"
              redirect_uris := ["http://localhost:8080/cb"]
              grant_types := ["authorization_code", "refresh_token"]
              response_types := ["code"]
              scope := "calendar.read calendar.write"
              created_at := 0 })] }).1 =
      .redirect
        { access_type := "offline"
          scopes :=
            ["https://www.googleapis.com/auth/calendar",
             "https://www.googleapis.com/auth/calendar.events",
             "https://www.googleapis.com/auth/userinfo.email",
             "https://www.googleapis.com/auth/userinfo.profile"]
          state := "gs1", prompt := "consent", response_type := "code"
          client_id := "gcid.apps.googleusercontent.com"
          redirect_uri := "http://localhost:3080/oauth/google/callback" }
    ∧ "calendar.read" ∉
        (UpstreamAuthUrl.params
          { access_type := "offline"
            scopes :=
              ["https://www.googleapis.com/auth/calendar",
               "https://www.googleapis.com/auth/calendar.events",
               "https://www.googleapis.com/auth/userinfo.email",
               "https://www.googleapis.com/auth/userinfo.profile"]
            state := "gs1", prompt := "consent", response_type := "code"
            client_id := "gcid.apps.googleusercontent.com"
            redirect_uri :=
              "http://localhost:3080/oauth/google/callback" }).map
          Prod.snd
    ∧ "http://localhost:3002" ∉
        (UpstreamAuthUrl.params
          { access_type := "offline"
            scopes :=
              ["https://www.googleapis.com/auth/calendar",
               "https://www.googleapis.com/auth/calendar.events",
               "https://www.googleapis.com/auth/userinfo.email",
               "https://www.googleapis.com/auth/userinfo.profile"]
            state := "gs1", prompt := "consent", response_type := "code"
            client_id := "gcid.apps.googleusercontent.com"
            redirect_uri :=
              "http://localhost:3080/oauth/google/callback" }).map
          Prod.snd :=
  ⟨rfl, by decide, by decide⟩

/-- C7 amended: for every `/authorize` request passing all validations the
server redirects to the upstream consent URL built from the freshly
generated upstream state alone (offline access, forced consent, the fixed
Google scope set and the service's configured client id / redirect URI —
the request's `resource` and `scope` are not encoded in it), and an
AuthorizationRequest holding the request's `resource` and `scope` is
stored under that fresh upstream state with a 10-minute expiry. -/
theorem authorize_success_redirect (cfg : Config)
    (svc : GoogleAuthService) (googleState : String) (now : Nat)
    (q : AuthorizeQuery) (st : Storage) (client : ClientRegistration)
    (h1 : jsFalsy q.client_id = false)
    (h2 : q.response_type = some "code")
    (h3 : q.code_challenge_method = some "S256")
    (h4 : q.resource = some cfg.mcpResourceId)
    (h4ne : cfg.mcpResourceId ≠ "")
    (h5 : jsFalsy q.redirect_uri = false)
    (h6 : jsFalsy q.state = false)
    (h7 : jsFalsy q.code_challenge = false)
    (hclient : SMap.get st.clients (q.client_id.getD "") = some client)
    (hred : (q.redirect_uri.getD "") ∈ client.redirect_uris) :
    (getAuthorize cfg svc googleState now q st).1 =
      .redirect (svc.generateAuthUrl googleState)
    ∧ SMap.get (getAuthorize cfg svc googleState now q st).2.authorizationRequests
        googleState =
        some { request :=
                 { client_id := q.client_id.getD ""
                   response_type := "code"
                   redirect_uri := q.redirect_uri.getD ""
                   scope := if jsFalsy q.scope then
                       "calendar.read calendar.write"
                     else q.scope.getD ""
                   state := q.state.getD ""
                   code_challenge := q.code_challenge.getD ""
                   code_challenge_method := "S256"
                   resource := q.resource.getD "" }
               googleState := googleState
               expires_at := now + 10 * 60 * 1000 } := by
  obtain ⟨ci, hci, hcine⟩ := jsFalsy_eq_false h1
  obtain ⟨ru, hru, hrune⟩ := jsFalsy_eq_false h5
  obtain ⟨stt, hst, hstne⟩ := jsFalsy_eq_false h6
  obtain ⟨ch, hch, hchne⟩ := jsFalsy_eq_false h7
  rw [hci] at hclient
  rw [hru] at hred
  simp only [Option.getD_some] at hclient hred
  refine ⟨?_, ?_⟩ <;>
    simp [getAuthorize, jsFalsy, hci, hcine, h2, h3, h4, h4ne, hru, hrune,
      hst, hstne, hch, hchne, Storage.getClient, hclient, hred,
      Storage.storeAuthorizationRequest, SMap.get_set_self]

/-- Witness for the amended C7 at a concrete valid request. -/
theorem authorize_success_redirect_witness :
    (getAuthorize
      { issuer := "http://localhost:3080"
        mcpResourceId := "http://localhost:3002" }
      { clientId := "gcid.apps.googleusercontent.com"
        clientSecret := "gsec"
        redirectUri := "http://localhost:3080/oauth/google/callback" }
      "gs3" 7000000
      { client_id := some "clientB", response_type := some "code"
        redirect_uri := some "http://localhost:8080/cb"
        scope := some "calendar.read", state := some "s8"
        code_challenge := some "ch", code_challenge_method := some "S256"
        resource := some "http://localhost:3002" }
      { Storage.empty with clients :=
          [("clientB",
            { client_id := "clientB", client_name := "app"
              redirect_uris := ["http://localhost:8080/cb"]
              grant_types := ["authorization_code", "refresh_token"]
              response_types := ["code"]
              scope := "calendar.read calendar.write"
              created_at := 0 })] }).1 =
      .redirect
        (GoogleAuthService.generateAuthUrl
          { clientId := "gcid.apps.googleusercontent.com"
            clientSecret := "gsec"
            redirectUri := "http://localhost:3080/oauth/google/callback" }
          "gs3")
    ∧ SMap.get (getAuthorize
      { issuer := "http://localhost:3080"
        mcpResourceId := "http://localhost:3002" }
      { clientId := "gcid.apps.googleusercontent.com"
        clientSecret := "gsec"
        redirectUri := "http://localhost:3080/oauth/google/callback" }
      "gs3" 7000000
      { client_id := some "clientB", response_type := some "code"
        redirect_uri := some "http://localhost:8080/cb"
        scope := some "calendar.read", state := some "s8"
        code_challenge := some "ch", code_challenge_method := some "S256"
        resource := some "http://localhost:3002" }
      { Storage.empty with clients :=
          [("clientB",
            { client_id := "clientB", client_name := "app"
              redirect_uris := ["http://localhost:8080/cb"]
              grant_types := ["authorization_code", "refresh_token"]
              response_types := ["code"]
              scope := "calendar.read calendar.write"
              created_at := 0 })] }).2.authorizationRequests "gs3" =
        some { request :=
                 { client_id := (some "clientB").getD ""
                   response_type := "code"
                   redirect_uri := (some "http://localhost:8080/cb").getD ""
                   scope := if jsFalsy (some "calendar.read") then
                       "calendar.read calendar.write"
                     else (some "calendar.read").getD ""
                   state := (some "s8").getD ""
                   code_challenge := (some "ch").getD ""
                   code_challenge_method := "S256"
                   resource := (some "http://localhost:3002").getD "" }
               googleState := "gs3"
               expires_at := 7000000 + 10 * 60 * 1000 } :=
  authorize_success_redirect
    { issuer := "http://localhost:3080"
      mcpResourceId := "http://localhost:3002" }
    { clientId := "gcid.apps.googleusercontent.com"
      clientSecret := "gsec"
      redirectUri := "http://localhost:3080/oauth/google/callback" }
    "gs3" 7000000
    { client_id := some "clientB", response_type := some "code"
      redirect_uri := some "http://localhost:8080/cb"
      scope := some "calendar.read", state := some "s8"
      code_challenge := some "ch", code_challenge_method := some "S256"
      resource := some "http://localhost:3002" }
    { Storage.empty with clients :=
        [("clientB",
          { client_id := "clientB", client_name := "app"
            redirect_uris := ["http://localhost:8080/cb"]
            grant_types := ["authorization_code", "refresh_token"]
            response_types := ["code"]
            scope := "calendar.read calendar.write"
            created_at := 0 })] }
    { client_id := "clientB", client_name := "app"
      redirect_uris := ["http://localhost:8080/cb"]
      grant_types := ["authorization_code", "refresh_token"]
      response_types := ["code"]
      scope := "calendar.read calendar.write"
      created_at := 0 }
    (by decide) rfl rfl rfl (by decide) (by decide) (by decide) (by decide)
    rfl (by decide)

/-- Counterexample to C8: a `POST /register` body with a valid
`client_name` and `redirect_uris = []` (an empty array) is NOT rejected:
the JS check `!client_name || !redirect_uris || !Array.isArray(...)`
passes because an empty array is truthy and is an array, so the client is
stored and 201 is returned with the full record. -/
theorem register_empty_uris_counterexample :
    (postRegister "cid1" 1000
      { client_name := some "app", redirect_uris := some (.array [])
        grant_types := none, response_types := none }
      Storage.empty).1 =
      .created { client_id := "cid1", client_name := "app"
                 redirect_uris := []
                 grant_types := ["authorization_code", "refresh_token"]
                 response_types := ["code"]
                 scope := "calendar.read calendar.write calendar.events.read calendar.events.write"
                 created_at := 1000 }
    ∧ SMap.get (postRegister "cid1" 1000
        { client_name := some "app", redirect_uris := some (.array [])
          grant_types := none, response_types := none }
        Storage.empty).2.clients "cid1" =
        some { client_id := "cid1", client_name := "app"
               redirect_uris := []
               grant_types := ["authorization_code", "refresh_token"]
               response_types := ["code"]
               scope := "calendar.read calendar.write calendar.events.read calendar.events.write"
               created_at := 1000 } :=
  ⟨rfl, rfl⟩

/-- C8 amended: `POST /register` fails with 400 `invalid_request` exactly
when `client_name` is missing or empty or `redirect_uris` is missing or
not an array; when `client_name` is truthy and `redirect_uris` is an
array — including the empty array — the client is stored and returned
with 201. -/
theorem register_spec (cid : String) (now : Nat) (b : RegisterBody)
    (st : Storage) :
    (∀ xs, b.redirect_uris = some (RedirectUrisVal.array xs) →
      jsFalsy b.client_name = false →
      (postRegister cid now b st).1 =
        .created { client_id := cid
                   client_name := b.client_name.getD ""
                   redirect_uris := xs
                   grant_types :=
                     b.grant_types.getD ["authorization_code", "refresh_token"]
                   response_types := b.response_types.getD ["code"]
                   scope := "calendar.read calendar.write calendar.events.read calendar.events.write"
                   created_at := now }
      ∧ SMap.get (postRegister cid now b st).2.clients cid =
          some { client_id := cid
                 client_name := b.client_name.getD ""
                 redirect_uris := xs
                 grant_types :=
                   b.grant_types.getD ["authorization_code", "refresh_token"]
                 response_types := b.response_types.getD ["code"]
                 scope := "calendar.read calendar.write calendar.events.read calendar.events.write"
                 created_at := now })
    ∧ ((jsFalsy b.client_name = true
        ∨ ∀ xs, b.redirect_uris ≠ some (RedirectUrisVal.array xs)) →
      postRegister cid now b st =
        (.err 400 "invalid_request"
           "Missing required fields: client_name, redirect_uris", st)) := by
  constructor
  · intro xs hx hn
    obtain ⟨s, hs, hsne⟩ := jsFalsy_eq_false hn
    constructor <;>
      simp [postRegister, hx, jsFalsy, hs, hsne, Storage.registerClient,
        SMap.get_set_self]
  · intro h
    rcases h with hn | hna
    · simp [postRegister, hn]
    · have huris : (match b.redirect_uris with
          | some (RedirectUrisVal.array _) => true
          | _ => false) = false := by
        cases hb : b.redirect_uris with
        | none => rfl
        | some v =>
            cases v with
            | array xs => exact absurd hb (hna xs)
            | notArray => rfl
      simp [postRegister, huris]

/-- Witness for the amended C8: one accepted registration (singleton
array) and one rejected registration (missing client_name). -/
theorem register_spec_witness :
    ((postRegister "cid2" 5
      { client_name := some "app2"
        redirect_uris := some (.array ["http://localhost:8080/cb"])
        grant_types := none, response_types := none }
      Storage.empty).1 =
      .created { client_id := "cid2"
                 client_name := (some "app2").getD ""
                 redirect_uris := ["http://localhost:8080/cb"]
                 grant_types :=
                   (none : Option (List String)).getD
                     ["authorization_code", "refresh_token"]
                 response_types := (none : Option (List String)).getD ["code"]
                 scope := "calendar.read calendar.write calendar.events.read calendar.events.write"
                 created_at := 5 }
    ∧ SMap.get (postRegister "cid2" 5
        { client_name := some "app2"
          redirect_uris := some (.array ["http://localhost:8080/cb"])
          grant_types := none, response_types := none }
        Storage.empty).2.clients "cid2" =
        some { client_id := "cid2"
               client_name := (some "app2").getD ""
               redirect_uris := ["http://localhost:8080/cb"]
               grant_types :=
                 (none : Option (List String)).getD
                   ["authorization_code", "refresh_token"]
               response_types := (none : Option (List String)).getD ["code"]
               scope := "calendar.read calendar.write calendar.events.read calendar.events.write"
               created_at := 5 })
    ∧ postRegister "cid3" 5
        { client_name := none
          redirect_uris := some (.array ["http://localhost:8080/cb"])
          grant_types := none, response_types := none }
        Storage.empty =
        (.err 400 "invalid_request"
           "Missing required fields: client_name, redirect_uris",
         Storage.empty) :=
  ⟨(register_spec "cid2" 5
      { client_name := some "app2"
        redirect_uris := some (.array ["http://localhost:8080/cb"])
        grant_types := none, response_types := none }
      Storage.empty).1 ["http://localhost:8080/cb"] rfl (by decide),
   (register_spec "cid3" 5
      { client_name := none
        redirect_uris := some (.array ["http://localhost:8080/cb"])
        grant_types := none, response_types := none }
      Storage.empty).2 (Or.inl rfl)⟩
